import Mathlib

/-!
Verification development for the reinsurance dashboard's temporal
normalization and aggregation pipeline.

JavaScript numbers are modelled as rationals (`ℚ`): every claim under
study is algebraic/structural, `NaN`/`Infinity` are representable only
as explicit `Option` failures of the parsers, and the division guards
in the source make all divisions well defined over `ℚ`.
-/

namespace KuwaitRe

/-- Digit list to natural number, most significant first. -/
def digitsToNat (cs : List Char) : Nat :=
  cs.foldl (fun a c => a * 10 + (c.toNat - 48)) 0

/-- JavaScript `s.trim()`, modelled structurally over the character
list. -/
def jsTrim (s : String) : String :=
  (((s.toList.dropWhile Char.isWhitespace).reverse.dropWhile
    Char.isWhitespace).reverse).asString

/-- JavaScript `s.toUpperCase()` on the ASCII strings of this data. -/
def jsToUpper (s : String) : String :=
  (s.toList.map Char.toUpper).asString

/-- JavaScript `s.toLowerCase()` on the ASCII strings of this data. -/
def jsToLower (s : String) : String :=
  (s.toList.map Char.toLower).asString

/-- Split a character list on a single space, like `s.split(' ')` /
`String.splitOn " "`. -/
def splitOnSpaceChar (cs : List Char) : List (List Char) :=
  cs.foldr
    (fun c acc =>
      match acc with
      | [] => [[c]]
      | h :: t => if c = ' ' then [] :: h :: t else (c :: h) :: t)
    [[]]

/-- Space-separated tokens of a string. -/
def splitSpaces (s : String) : List String :=
  (splitOnSpaceChar s.toList).map List.asString

/-- Models JavaScript `parseInt(s)` (decimal, as used on year labels):
skip surrounding whitespace, optional sign, longest leading digit run;
`NaN` (no digits) is `none`. -/
def parseIntJS (s : String) : Option Int :=
  let cs := (jsTrim s).toList
  let core : List Char → Option Nat := fun l =>
    let ds := l.takeWhile Char.isDigit
    if ds.isEmpty then none else some (digitsToNat ds)
  match cs with
  | '-' :: rest => (core rest).map (fun n => -(n : Int))
  | '+' :: rest => (core rest).map (fun n => (n : Int))
  | _ => (core cs).map (fun n => (n : Int))

/-- Optional sign prefix of a numeral. -/
def signSplit : List Char → (Bool × List Char)
  | '-' :: rest => (true, rest)
  | '+' :: rest => (false, rest)
  | l => (false, l)

/-- The syntactic decomposition performed by JavaScript `parseFloat`:
(sign, integer digits value, fraction digits value, fraction length,
exponent sign, exponent value); `none` when no digit is found (`NaN`).
A bare `e` with no digits contributes exponent 0, as `parseFloat`
keeps only the longest valid prefix. -/
def parseFloatParts (s : String) :
    Option (Bool × Nat × Nat × Nat × Bool × Nat) :=
  let cs := (jsTrim s).toList
  let (neg, cs1) := signSplit cs
  let intDs := cs1.takeWhile Char.isDigit
  let cs2 := cs1.dropWhile Char.isDigit
  let fracDs :=
    match cs2 with
    | '.' :: rest => rest.takeWhile Char.isDigit
    | _ => []
  let cs3 :=
    match cs2 with
    | '.' :: rest => rest.dropWhile Char.isDigit
    | _ => cs2
  if intDs.isEmpty ∧ fracDs.isEmpty then none
  else
    let ex :=
      match cs3 with
      | 'e' :: rest =>
        let (eneg, r2) := signSplit rest
        let eds := r2.takeWhile Char.isDigit
        if eds.isEmpty then (false, 0) else (eneg, digitsToNat eds)
      | 'E' :: rest =>
        let (eneg, r2) := signSplit rest
        let eds := r2.takeWhile Char.isDigit
        if eds.isEmpty then (false, 0) else (eneg, digitsToNat eds)
      | _ => (false, 0)
    some (neg, digitsToNat intDs, digitsToNat fracDs, fracDs.length, ex.1, ex.2)

/-- The rational value of a `parseFloatParts` decomposition. -/
def floatValue (neg : Bool) (ip fp fl : Nat) (eneg : Bool) (ev : Nat) : ℚ :=
  let mantissa : ℚ := (ip : ℚ) + (fp : ℚ) / (10 : ℚ) ^ fl
  let expPart : ℚ := if eneg then 1 / (10 : ℚ) ^ ev else (10 : ℚ) ^ ev
  let v := mantissa * expPart
  if neg then -v else v

/-- Models JavaScript `parseFloat(s)`: skip whitespace, optional sign,
digits with optional fraction and optional exponent, longest valid
prefix; `NaN` is `none`.  (The literal token `Infinity` lies outside
the rational model and does not occur in this dataset's cells.) -/
def parseFloatJS (s : String) : Option ℚ :=
  (parseFloatParts s).map
    (fun p => floatValue p.1 p.2.1 p.2.2.1 p.2.2.2.1 p.2.2.2.2.1 p.2.2.2.2.2)

/-- Strip `','` and whitespace, the source's `value.replace(/[,\s]/g, '')`. -/
def stripCommasWs (s : String) : String :=
  (s.toList.filter (fun c => ¬ (c = ',' ∨ c.isWhitespace))).asString

/-- `safeParseFloat` from `src/src/app/api/quarterly/route.ts` (also the
yearly route): empty cell or `NaN` becomes `0`. -/
def safeParseFloat (value : String) : ℚ :=
  if jsTrim value = "" then 0
  else
    match parseFloatJS (stripCommasWs value) with
    | none => 0
    | some q => q

/-- `safeParseInt` from the quarterly route: empty or `NaN` is absent
(`undefined`), otherwise `Math.floor` of the parsed float. -/
def safeParseInt (value : String) : Option Int :=
  if jsTrim value = "" then none
  else
    match parseFloatJS (stripCommasWs value) with
    | none => none
    | some q => some ⌊q⌋

/-- `safeDivide` from the formatting utilities: zero denominator yields
`0`.  The source's `isNaN` guards are vacuous over `ℚ`, where `NaN`
does not exist. -/
def safeDivide (numerator denominator : ℚ) : ℚ :=
  if denominator = 0 then 0 else numerator / denominator

/-- The quarterly route's month-spelling map: full names map to the
canonical 3-letter code, everything else (including the 3-letter codes
themselves) passes through, modelling `monthMap[month] || month`. -/
def monthMap (m : String) : String :=
  match m with
  | "JANUARY" => "JAN"
  | "FEBRUARY" => "FEB"
  | "MARCH" => "MAR"
  | "APRIL" => "APR"
  | "JUNE" => "JUN"
  | "JULY" => "JUL"
  | "AUGUST" => "AUG"
  | "SEPTEMBER" => "SEP"
  | "OCTOBER" => "OCT"
  | "NOVEMBER" => "NOV"
  | "DECEMBER" => "DEC"
  | _ => m

/-- The quarterly route's month-code to quarter chain of `includes`
checks. -/
def monthToQuarterStr (m : String) : Option String :=
  if m = "JAN" ∨ m = "FEB" ∨ m = "MAR" then some "Q1"
  else if m = "APR" ∨ m = "MAY" ∨ m = "JUN" then some "Q2"
  else if m = "JUL" ∨ m = "AUG" ∨ m = "SEP" then some "Q3"
  else if m = "OCT" ∨ m = "NOV" ∨ m = "DEC" then some "Q4"
  else none

/-- The regex `^[1-4]$`. -/
def isBareDigit14 (s : String) : Bool :=
  s == "1" || s == "2" || s == "3" || s == "4"

/-- The regex `^Q[1-4]$` (applied after uppercasing). -/
def isQ14 (s : String) : Bool :=
  s == "Q1" || s == "Q2" || s == "Q3" || s == "Q4"

/-- Gregorian leap year, as in the ECMAScript calendar. -/
def isLeapYear (y : Int) : Bool :=
  (y % 4 == 0 && y % 100 != 0) || (y % 400 == 0)

/-- Days in a calendar month (`m` is 1-based). -/
def daysInMonth (y : Int) (m : Nat) : Nat :=
  match m with
  | 2 => if isLeapYear y then 29 else 28
  | 4 => 30
  | 6 => 30
  | 9 => 30
  | 11 => 30
  | _ => 31

/-- Month-overflow normalization of the `Date(Y, m0, d)` constructor:
`m0` is the 0-based month argument, possibly out of range; returns the
normalized year and 1-based month. -/
def normMonths (y : Int) (m0 : Int) : Int × Nat :=
  (y + m0.fdiv 12, (m0.fmod 12).toNat + 1)

/-- One month earlier. -/
def prevMonth (y : Int) (m : Nat) : Int × Nat :=
  if m = 1 then (y - 1, 12) else (y, m - 1)

/-- One month later. -/
def nextMonth (y : Int) (m : Nat) : Int × Nat :=
  if m = 12 then (y + 1, 1) else (y, m + 1)

/-- Day-overflow normalization: `off` is the 0-based offset from the
first of month `m` of year `y`; fuel bounds the (small) number of month
steps the two-digit day fields of this pipeline can require. -/
def dayNorm : Nat → Int → Nat → Int → Int × Nat × Nat
  | 0, y, m, off => (y, m, (off + 1).toNat)
  | fuel + 1, y, m, off =>
    if off < 0 then
      let (y2, m2) := prevMonth y m
      dayNorm fuel y2 m2 (off + (daysInMonth y2 m2 : Int))
    else if (daysInMonth y m : Int) ≤ off then
      let (y2, m2) := nextMonth y m
      dayNorm fuel y2 m2 (off - (daysInMonth y m : Int))
    else (y, m, off.toNat + 1)

/-- Models the ECMAScript `new Date(Y, m0, d)` constructor on integer
arguments: out-of-range month and day arguments roll over into
adjacent months/years and the construction never fails.  Returns
(year, 1-based month, day). -/
def jsMakeDate (y : Int) (m0 : Int) (d : Int) : Int × Nat × Nat :=
  let (y1, m1) := normMonths y m0
  dayNorm 40 y1 m1 (d - 1)

/-- Match 1-2 leading digits; return the value and the remainder. -/
def take12Digits (cs : List Char) : Option (Nat × List Char) :=
  let ds := cs.takeWhile Char.isDigit
  if ds.length = 1 ∨ ds.length = 2 then some (digitsToNat ds, cs.drop ds.length)
  else none

/-- Match the numeric `(\d{1,2})[\/\-](\d{1,2})[\/\-](\d{2,4})` shape;
returns the three numeric fields. -/
def matchNumericDMY (s : String) : Option (Nat × Nat × Nat) :=
  match take12Digits s.toList with
  | none => none
  | some (a, r1) =>
    match r1 with
    | sep1 :: r2 =>
      if sep1 = '/' ∨ sep1 = '-' then
        match take12Digits r2 with
        | none => none
        | some (b, r3) =>
          match r3 with
          | sep2 :: r4 =>
            if sep2 = '/' ∨ sep2 = '-' then
              let ds := r4.takeWhile Char.isDigit
              if (2 ≤ ds.length ∧ ds.length ≤ 4) ∧ r4.drop ds.length = [] then
                some (a, b, digitsToNat ds)
              else none
            else none
          | [] => none
      else none
    | [] => none

/-- Strict `^\d{4}-\d{2}-\d{2}$` decomposition. -/
def matchISO (s : String) : Option (Nat × Nat × Nat) :=
  match s.toList with
  | [y1, y2, y3, y4, d1, m1, m2, d2, a1, a2] =>
    if ([y1, y2, y3, y4, m1, m2, a1, a2].all Char.isDigit) ∧ d1 = '-' ∧ d2 = '-' then
      some (digitsToNat [y1, y2, y3, y4], digitsToNat [m1, m2], digitsToNat [a1, a2])
    else none
  | _ => none

/-- 3-letter month code to month number. -/
def monthAbbrevNum (m : String) : Option Nat :=
  match m with
  | "JAN" => some 1
  | "FEB" => some 2
  | "MAR" => some 3
  | "APR" => some 4
  | "MAY" => some 5
  | "JUN" => some 6
  | "JUL" => some 7
  | "AUG" => some 8
  | "SEP" => some 9
  | "OCT" => some 10
  | "NOV" => some 11
  | "DEC" => some 12
  | _ => none

/-- Match the textual `"01 Jan 2020"` shape accepted by the JavaScript
date parser for this dataset: day, month name (matched by its first
three letters, case-insensitively), 4-digit year. -/
def matchTextualDMY (s : String) : Option (Nat × Nat × Nat) :=
  match splitSpaces s with
  | [dTok, mTok, yTok] =>
    let dcs := dTok.toList
    let ycs := yTok.toList
    if (dcs.all Char.isDigit ∧ (dcs.length = 1 ∨ dcs.length = 2)) ∧
        (ycs.all Char.isDigit ∧ ycs.length = 4) then
      match monthAbbrevNum (((jsToUpper mTok).toList.take 3).asString) with
      | some mo => some (digitsToNat dcs, mo, digitsToNat ycs)
      | none => none
    else none
  | _ => none

/-- Models the ECMAScript (V8) `new Date(string)` parser, restricted to
the date formats occurring in this pipeline: strict ISO `YYYY-MM-DD`;
numeric slash/dash dates read MONTH-FIRST (`M/D/Y`, the engine's
legacy US convention) with month 1-12 and day 1-31 required and day
overflow rolling into the next month; textual `"01 Jan 2020"` style.
Anything else is an Invalid Date (`none`).  Returns
(year, 1-based month, day). -/
def jsNewDate (s : String) : Option (Int × Nat × Nat) :=
  let t := jsTrim s
  match matchISO t with
  | some (y, mo, d) =>
    if (1 ≤ mo ∧ mo ≤ 12) ∧ (1 ≤ d ∧ d ≤ daysInMonth (y : Int) mo) then
      some ((y : Int), mo, d)
    else none
  | none =>
    match matchNumericDMY t with
    | some (a, b, yraw) =>
      let y : Nat := if yraw < 50 then 2000 + yraw else if yraw < 100 then 1900 + yraw else yraw
      if (1 ≤ a ∧ a ≤ 12) ∧ (1 ≤ b ∧ b ≤ 31) then
        some (jsMakeDate (y : Int) ((a : Int) - 1) (b : Int))
      else none
    | none =>
      match matchTextualDMY t with
      | some (d, mo, y) =>
        if 1 ≤ d ∧ d ≤ 31 then some (jsMakeDate (y : Int) ((mo : Int) - 1) (d : Int))
        else none
      | none => none

/-- `parseComDateToJSDate` from the calculations library: ISO first,
then numeric `D/M/Y` with the DAY-FIRST heuristic (swap to `M/D` only
when the first number is ≤ 12 and the second is > 12), then textual
dates; results are cached by input string in the source, which does
not change the computed value.  Returns (year, 1-based month, day). -/
def parseComDateToJSDate (raw : String) : Option (Int × Nat × Nat) :=
  let s := jsTrim raw
  if s = "" then none
  else
    match matchISO s with
    | some (y, mo, d) =>
      if (1 ≤ mo ∧ mo ≤ 12) ∧ (1 ≤ d ∧ d ≤ daysInMonth (y : Int) mo) then
        some ((y : Int), mo, d)
      else none
    | none =>
      match matchNumericDMY s with
      | some (a, b, yraw) =>
        let y : Nat := if yraw < 100 then 2000 + yraw else yraw
        let dm : Nat × Nat := if a ≤ 12 ∧ 12 < b then (b, a) else (a, b)
        some (jsMakeDate (y : Int) ((dm.2 : Int) - 1) (dm.1 : Int))
      | none =>
        match matchTextualDMY s with
        | some (d, mo, y) =>
          if 1 ≤ d ∧ d ≤ 31 then some (jsMakeDate (y : Int) ((mo : Int) - 1) (d : Int))
          else none
        | none => none

/-- The canonical record produced by the route-level CSV parsers
(`ReinsuranceData` in `src/unnamed/part_006`); in the quarterly and
yearly routes the optional string fields default to `""`. -/
structure ReinsuranceData where
  uy : String
  extType : String
  broker : String
  cedant : String
  orgInsuredTrtyName : String
  maxLiabilityFC : ℚ
  grossUWPrem : ℚ
  grossBookPrem : ℚ
  grossActualAcq : ℚ
  grossPaidClaims : ℚ
  grossOsLoss : ℚ
  countryName : String
  region : String
  hub : String
  inceptionYear : Option Int
  inceptionQuarter : String
  inceptionMonth : String
  comDate : String
deriving DecidableEq

/-- JavaScript falsiness of an optional number: `undefined` and `0`. -/
def jsFalsyInt : Option Int → Bool
  | none => true
  | some y => y == 0

/-- The year half of `normalizeTimeData` in the quarterly route: start
from the inception year; when it is falsy fall back to `parseInt` of
the underwriting-year label if that lies in [2019, 2021]; finally
reject falsy or out-of-range years. -/
def yearResolve (r : ReinsuranceData) : Option Int :=
  let year0 := r.inceptionYear
  let year1 :=
    if jsFalsyInt year0 ∧ r.uy ≠ "" then
      match parseIntJS r.uy with
      | some y => if 2019 ≤ y ∧ y ≤ 2021 then some y else year0
      | none => year0
    else year0
  match year1 with
  | none => none
  | some y => if y = 0 ∨ y < 2019 ∨ 2021 < y then none else some y

/-- The quarter chain of `normalizeTimeData` in the quarterly route,
translated branch for branch over the already trimmed/uppercased
quarter field `q0`, the trimmed/uppercased month field `m`, the raw
quarter field `rawQ` and the raw commitment date `cd`: when `q0` is
empty or a bare digit 1-4, first try the month; then the source's
digit-conversion branch (guarded by the quarter string still being
empty); then the `new Date(comDate)` fallback, whose Invalid Date case
produces the string `"QNaN"` (the template literal of `NaN`). -/
def deriveQuarterStr (q0 m rawQ cd : String) : String :=
  if q0 = "" ∨ isBareDigit14 q0 then
    let q1 :=
      if m ≠ "" then
        match monthToQuarterStr (monthMap m) with
        | some qq => qq
        | none => q0
      else q0
    let q2 :=
      if q1 = "" ∧ rawQ ≠ "" ∧ isBareDigit14 rawQ then "Q" ++ rawQ
      else q1
    if q2 = "" ∧ cd ≠ "" then
      match jsNewDate cd with
      | some (_, mo, _) => "Q" ++ toString ((mo + 2) / 3)
      | none => "QNaN"
    else q2
  else q0

/-- The quarter half of `normalizeTimeData`: derive the quarter string,
then validate it against `^Q[1-4]$`. -/
def quarterResolve (r : ReinsuranceData) : Option String :=
  let q := deriveQuarterStr (jsToUpper (jsTrim r.inceptionQuarter))
    (jsToUpper (jsTrim r.inceptionMonth)) r.inceptionQuarter r.comDate
  if isQ14 q then some q else none

/-- `normalizeTimeData` from the quarterly route: both halves must
succeed. -/
def normalizeTimeData (r : ReinsuranceData) : Option (Int × String) :=
  match yearResolve r with
  | none => none
  | some y =>
    match quarterResolve r with
    | none => none
    | some q => some (y, q)

/-- One aggregate bucket of the quarterly route's `GET` (the entries of
its `quarters` record). -/
structure QBucket where
  quarter : Nat
  year : Int
  policyCount : Nat
  premium : ℚ
  acquisition : ℚ
  paidClaims : ℚ
  osLoss : ℚ
  incurredClaims : ℚ
  technicalResult : ℚ
  lossRatioPct : ℚ
  acquisitionPct : ℚ
  combinedRatioPct : ℚ
deriving DecidableEq

/-- The grand-total object of the quarterly and yearly routes. -/
structure TotalBucket where
  policyCount : Nat
  premium : ℚ
  acquisition : ℚ
  paidClaims : ℚ
  osLoss : ℚ
  incurredClaims : ℚ
  technicalResult : ℚ
  lossRatioPct : ℚ
  acquisitionPct : ℚ
  combinedRatioPct : ℚ
deriving DecidableEq

/-- Sum of a measure over a record group, the route's
`reduce((sum, record) => sum + (record.f || 0), 0)`. -/
def sumBy (f : ReinsuranceData → ℚ) (l : List ReinsuranceData) : ℚ :=
  (l.map f).sum

/-- The quarterly route's normalization and year-filter step: attach
`normalizeTimeData` results, drop unresolvable records, and keep only
the requested year when one is given.  The year parameter is modelled
as absent or an integer (the route compares against
`parseInt(yearParam)`). -/
def normalizedData (records : List ReinsuranceData) (yparam : Option Int) :
    List (ReinsuranceData × Int × String) :=
  (records.filterMap fun r =>
    match normalizeTimeData r with
    | none => none
    | some (y, q) => some (r, y, q)).filter
    (fun t =>
      match yparam with
      | none => true
      | some y => t.2.1 = y)

/-- The per-quarter bucket computation of the quarterly route's `GET`:
sums of the four base measures, derived measures, and the
`premium > 0` ratio guard. -/
def computeQBucket (qnum : Nat) (yparam : Option Int)
    (grp : List ReinsuranceData) : QBucket :=
  let policyCount := grp.length
  let premium := sumBy (·.grossUWPrem) grp
  let acquisition := sumBy (·.grossActualAcq) grp
  let paidClaims := sumBy (·.grossPaidClaims) grp
  let osLoss := sumBy (·.grossOsLoss) grp
  let incurredClaims := paidClaims + osLoss
  let technicalResult := premium - incurredClaims - acquisition
  let lossRatioPct := if 0 < premium then incurredClaims / premium * 100 else 0
  let acquisitionPct := if 0 < premium then acquisition / premium * 100 else 0
  let combinedRatioPct := lossRatioPct + acquisitionPct
  ⟨qnum, yparam.getD 0, policyCount, premium, acquisition, paidClaims, osLoss,
    incurredClaims, technicalResult, lossRatioPct, acquisitionPct, combinedRatioPct⟩

/-- The group of normalized records whose quarter key is `qs`. -/
def quarterGroup (records : List ReinsuranceData) (yparam : Option Int)
    (qs : String) : List ReinsuranceData :=
  ((normalizedData records yparam).filter (fun t => t.2.2 = qs)).map (·.1)

/-- Grand total from the four base-measure accumulators, as in both
routes' total objects. -/
def computeTotal (policyCount : Nat) (premium acquisition paidClaims osLoss : ℚ) :
    TotalBucket :=
  let incurredClaims := paidClaims + osLoss
  let technicalResult := premium - incurredClaims - acquisition
  let lossRatioPct := if 0 < premium then incurredClaims / premium * 100 else 0
  let acquisitionPct := if 0 < premium then acquisition / premium * 100 else 0
  let combinedRatioPct := lossRatioPct + acquisitionPct
  ⟨policyCount, premium, acquisition, paidClaims, osLoss, incurredClaims,
    technicalResult, lossRatioPct, acquisitionPct, combinedRatioPct⟩

/-- Result shape of the quarterly route's `GET`. -/
structure QuarterlyResult where
  quarters : List QBucket
  total : TotalBucket
deriving DecidableEq

/-- The quarter keys iterated by the route (`quarterOrder`). -/
def quarterOrder : List String := ["Q1", "Q2", "Q3", "Q4"]

/-- String key of quarter number `n`. -/
def quarterKey (n : Nat) : String := "Q" ++ toString n

/-- The quarterly route's `GET` aggregation: one bucket per quarter
key Q1-Q4 (zero-record quarters included) and a grand total
accumulated over the four groups. -/
def quarterlyResult (records : List ReinsuranceData) (yparam : Option Int) :
    QuarterlyResult :=
  let grp := fun n => quarterGroup records yparam (quarterKey n)
  let buckets := [1, 2, 3, 4].map (fun n => computeQBucket n yparam (grp n))
  let total := computeTotal
    ((buckets.map (·.policyCount)).sum)
    ((buckets.map (·.premium)).sum)
    ((buckets.map (·.acquisition)).sum)
    ((buckets.map (·.paidClaims)).sum)
    ((buckets.map (·.osLoss)).sum)
  ⟨buckets, total⟩

/-- One aggregate bucket of the yearly route's `GET`. -/
structure YBucket where
  year : Int
  policyCount : Nat
  premium : ℚ
  acquisition : ℚ
  paidClaims : ℚ
  osLoss : ℚ
  incurredClaims : ℚ
  technicalResult : ℚ
  lossRatioPct : ℚ
  acquisitionPct : ℚ
  combinedRatioPct : ℚ
deriving DecidableEq

/-- The yearly route's per-record year assignment: inception year,
falling back (only when the inception year is falsy) to the
underwriting-year label when it parses into [2019, 2021]; the record
then lands in a group only when the resulting year is truthy and one
of the keys 2019-2021. -/
def yearlyYearOf (r : ReinsuranceData) : Option Int :=
  let year0 := r.inceptionYear
  let year1 :=
    if jsFalsyInt year0 ∧ r.uy ≠ "" then
      match parseIntJS r.uy with
      | some y => if 2019 ≤ y ∧ y ≤ 2021 then some y else year0
      | none => year0
    else year0
  match year1 with
  | none => none
  | some y =>
    if y ≠ 0 ∧ (y = 2019 ∨ y = 2020 ∨ y = 2021) then some y else none

/-- The group of records assigned to year `y` by the yearly route. -/
def yearGroup (records : List ReinsuranceData) (y : Int) : List ReinsuranceData :=
  records.filter (fun r => yearlyYearOf r = some y)

/-- The per-year bucket computation of the yearly route's `GET`. -/
def computeYBucket (y : Int) (grp : List ReinsuranceData) : YBucket :=
  let policyCount := grp.length
  let premium := sumBy (·.grossUWPrem) grp
  let acquisition := sumBy (·.grossActualAcq) grp
  let paidClaims := sumBy (·.grossPaidClaims) grp
  let osLoss := sumBy (·.grossOsLoss) grp
  let incurredClaims := paidClaims + osLoss
  let technicalResult := premium - incurredClaims - acquisition
  let lossRatioPct := if 0 < premium then incurredClaims / premium * 100 else 0
  let acquisitionPct := if 0 < premium then acquisition / premium * 100 else 0
  let combinedRatioPct := lossRatioPct + acquisitionPct
  ⟨y, policyCount, premium, acquisition, paidClaims, osLoss, incurredClaims,
    technicalResult, lossRatioPct, acquisitionPct, combinedRatioPct⟩

/-- Result shape of the yearly route's `GET`. -/
structure YearlyResult where
  years : List YBucket
  total : TotalBucket
deriving DecidableEq

/-- The year keys iterated by the yearly route (`yearOrder`). -/
def yearOrder : List Int := [2019, 2020, 2021]

/-- The yearly route's `GET` aggregation. -/
def yearlyResult (records : List ReinsuranceData) : YearlyResult :=
  let buckets := yearOrder.map (fun y => computeYBucket y (yearGroup records y))
  let total := computeTotal
    ((buckets.map (·.policyCount)).sum)
    ((buckets.map (·.premium)).sum)
    ((buckets.map (·.acquisition)).sum)
    ((buckets.map (·.paidClaims)).sum)
    ((buckets.map (·.osLoss)).sum)
  ⟨buckets, total⟩

/-- `KPIData` from the schema module. -/
structure KPIData where
  premium : ℚ
  paidClaims : ℚ
  outstandingClaims : ℚ
  incurredClaims : ℚ
  expense : ℚ
  lossRatio : ℚ
  expenseRatio : ℚ
  combinedRatio : ℚ
  numberOfAccounts : Nat
  avgMaxLiability : ℚ
deriving DecidableEq

/-- `aggregateKPIs` from the calculations library: the empty record
list short-circuits to the all-zero KPI object; otherwise sums of the
base measures with `safeDivide`-guarded ratios and average liability. -/
def aggregateKPIs (records : List ReinsuranceData) : KPIData :=
  if records.length = 0 then
    ⟨0, 0, 0, 0, 0, 0, 0, 0, 0, 0⟩
  else
    let totalPremium := sumBy (·.grossUWPrem) records
    let totalPaidClaims := sumBy (·.grossPaidClaims) records
    let totalOutstandingClaims := sumBy (·.grossOsLoss) records
    let totalIncurredClaims := totalPaidClaims + totalOutstandingClaims
    let totalExpense := sumBy (·.grossActualAcq) records
    let totalMaxLiability := sumBy (·.maxLiabilityFC) records
    let lossRatio := safeDivide totalIncurredClaims totalPremium * 100
    let expenseRatio := safeDivide totalExpense totalPremium * 100
    let combinedRatio := lossRatio + expenseRatio
    let avgMaxLiability := safeDivide totalMaxLiability (records.length : ℚ)
    ⟨totalPremium, totalPaidClaims, totalOutstandingClaims, totalIncurredClaims,
      totalExpense, lossRatio, expenseRatio, combinedRatio, records.length,
      avgMaxLiability⟩

/-- `NormalizedRow` from the analytics page. -/
structure NormalizedRow where
  countryName : String
  region : String
  hub : String
  broker : Option String
  cedant : Option String
  insured : Option String
  year : Option Int
  kCountry : String
  kRegion : String
  kHub : String
  kBroker : Option String
  kCedant : Option String
  kInsured : Option String
  grossUWPrem : ℚ
  grossActualAcq : ℚ
  grossPaidClaims : ℚ
  grossOsLoss : ℚ
deriving DecidableEq

/-- `ClientData` from the analytics page. -/
structure ClientData where
  name : String
  premium : ℚ
  lossRatio : ℚ
  policyCount : Nat
  incurredClaims : ℚ
  acquisitionCosts : ℚ
  technicalResult : ℚ
  combinedRatio : ℚ
  percentageOfTotal : ℚ
deriving DecidableEq

/-- The page's client dimension selector. -/
inductive ClientType where
  | brokerDim : ClientType
  | cedantDim : ClientType
deriving DecidableEq

/-- The raw client name of a row for the selected dimension. -/
def clientNameOf (ct : ClientType) (r : NormalizedRow) : Option String :=
  match ct with
  | .brokerDim => r.broker
  | .cedantDim => r.cedant

/-- JavaScript `a || b` on a nullable string. -/
def jsOrStr (o : Option String) (d : String) : String :=
  match o with
  | some s => if s = "" then d else s
  | none => d

/-- Append a row to its client group, keeping first-seen key order
(JavaScript object key insertion order). -/
def insertGroup (gs : List (String × List NormalizedRow)) (k : String)
    (r : NormalizedRow) : List (String × List NormalizedRow) :=
  match gs with
  | [] => [(k, [r])]
  | (k0, l) :: rest =>
    if k0 = k then (k0, l ++ [r]) :: rest else (k0, l) :: insertGroup rest k r

/-- The analytics page's grouping of filtered rows by client name
(records with a blank client name are excluded from the breakdown). -/
def groupByClient (ct : ClientType) (rows : List NormalizedRow) :
    List (String × List NormalizedRow) :=
  rows.foldl
    (fun gs r =>
      match clientNameOf ct r with
      | some nm => if jsTrim nm ≠ "" then insertGroup gs nm r else gs
      | none => gs) []

/-- `calculateClientMetrics` from the analytics page. -/
def calculateClientMetrics (grp : List NormalizedRow) : ClientData :=
  let premium := (grp.map (·.grossUWPrem)).sum
  let acquisition := (grp.map (·.grossActualAcq)).sum
  let claims := (grp.map (fun d => d.grossPaidClaims + d.grossOsLoss)).sum
  let policyCount := grp.length
  let lossRatio := if 0 < premium then claims / premium * 100 else 0
  let acquisitionCostsPct := if 0 < premium then acquisition / premium * 100 else 0
  let technicalResult := premium - claims - acquisition
  let combinedRatio := lossRatio + acquisitionCostsPct
  let name :=
    match grp.head? with
    | some r => jsOrStr r.broker (jsOrStr r.cedant "")
    | none => ""
  ⟨name, premium, lossRatio, policyCount, claims, acquisition, technicalResult,
    combinedRatio, 0⟩

/-- Result shape of the analytics page's `clientData` memo. -/
structure ClientResult where
  clients : List ClientData
  totals : Option ClientData
  grandTotal : Option ClientData
deriving DecidableEq

/-- The page's `Object.keys(clientGroups).sort()` followed by metric
computation, realized by sorting the (unique-keyed) group list by key;
string order is code-unit lexicographic in both. -/
def clientMetricsOf (ct : ClientType) (rows : List NormalizedRow) : List ClientData :=
  ((groupByClient ct rows).mergeSort (fun a b => a.1 ≤ b.1)).map
    (fun g => calculateClientMetrics g.2)

/-- `clientData` from the analytics page: per-client buckets sorted by
premium descending and capped at `maxClients`, a top-N totals row, and
a grand-total row computed over ALL client groups. -/
def clientData (ct : ClientType) (maxClients : Nat) (rows : List NormalizedRow) :
    ClientResult :=
  if rows.length = 0 then ⟨[], none, none⟩
  else
    let clientMetrics := clientMetricsOf ct rows
    let topClients := (clientMetrics.mergeSort (fun a b => b.premium ≤ a.premium)).take maxClients
    let grandTotal := (clientMetrics.map (·.premium)).sum
    let grandTotalClaims := (clientMetrics.map (·.incurredClaims)).sum
    let grandTotalLossRatio := if 0 < grandTotal then grandTotalClaims / grandTotal * 100 else 0
    let topNTotal := (topClients.map (·.premium)).sum
    let topNClaims := (topClients.map (·.incurredClaims)).sum
    let topNLossRatio := if 0 < topNTotal then topNClaims / topNTotal * 100 else 0
    let clientsWithPercentages := topClients.map
      (fun c => { c with percentageOfTotal := if 0 < grandTotal then c.premium / grandTotal * 100 else 0 })
    let totalsRow : ClientData :=
      ⟨"TOTAL (Top " ++ toString maxClients ++ ")", topNTotal, topNLossRatio,
        (topClients.map (·.policyCount)).sum, topNClaims,
        (topClients.map (·.acquisitionCosts)).sum,
        (topClients.map (·.technicalResult)).sum,
        (if 0 < topClients.length then (topClients.map (·.combinedRatio)).sum / (topClients.length : ℚ) else 0),
        if 0 < grandTotal then topNTotal / grandTotal * 100 else 0⟩
    let grandTotalRow : ClientData :=
      ⟨"Grand Total", grandTotal, grandTotalLossRatio,
        (clientMetrics.map (·.policyCount)).sum, grandTotalClaims,
        (clientMetrics.map (·.acquisitionCosts)).sum,
        (clientMetrics.map (·.technicalResult)).sum,
        (if 0 < clientMetrics.length then (clientMetrics.map (·.combinedRatio)).sum / (clientMetrics.length : ℚ) else 0),
        100⟩
    ⟨clientsWithPercentages, some totalsRow, some grandTotalRow⟩

/-- The filterable dimensions of `filterRecords` in the calculations
library (the string fields of `ReinsuranceData`, plus the special
`year` facet). -/
inductive FacetKey where
  | uyKey | extTypeKey | brokerKey | cedantKey | orgInsuredKey
  | countryKey | regionKey | hubKey | yearKey
deriving DecidableEq

/-- All facet keys, in iteration order. -/
def facetKeys : List FacetKey :=
  [.uyKey, .extTypeKey, .brokerKey, .cedantKey, .orgInsuredKey,
   .countryKey, .regionKey, .hubKey, .yearKey]

/-- The string field a non-year facet matches against. -/
def facetField (r : ReinsuranceData) : FacetKey → String
  | .uyKey => r.uy
  | .extTypeKey => r.extType
  | .brokerKey => r.broker
  | .cedantKey => r.cedant
  | .orgInsuredKey => r.orgInsuredTrtyName
  | .countryKey => r.countryName
  | .regionKey => r.region
  | .hubKey => r.hub
  | .yearKey => ""

/-- The year string of a record for the `year` facet: the parsed
commitment date's year when the date parses, else the inception year,
else empty. -/
def yearStringOf (r : ReinsuranceData) : String :=
  let fallback :=
    match r.inceptionYear with
    | some y => toString y
    | none => ""
  if r.comDate ≠ "" then
    match parseComDateToJSDate r.comDate with
    | some (y, _, _) => toString y
    | none => fallback
  else fallback

/-- A per-facet selection state. -/
def Filters : Type := FacetKey → List String

/-- Whether a record matches one facet's selected values: exact match
for `year`, case-insensitive trimmed equality with any selected value
otherwise. -/
def matchesFacet (r : ReinsuranceData) (k : FacetKey) (vs : List String) : Bool :=
  match k with
  | .yearKey =>
    let ys := yearStringOf r
    ys ≠ "" && vs.contains ys
  | _ =>
    vs.any (fun v => jsTrim (jsToLower v) == jsTrim (jsToLower (facetField r k)))

/-- Whether any facet has a selection. -/
def hasFilters (fs : Filters) : Bool :=
  facetKeys.any (fun k => !(fs k).isEmpty)

/-- A record passes when every facet with a selection matches it. -/
def recordPasses (fs : Filters) (r : ReinsuranceData) : Bool :=
  facetKeys.all (fun k => (fs k).isEmpty || matchesFacet r k (fs k))

/-- `filterRecords` from the calculations library: early return on no
selections, otherwise union-within-facet, intersection-across-facets. -/
def filterRecords (records : List ReinsuranceData) (fs : Filters) :
    List ReinsuranceData :=
  if hasFilters fs then records.filter (recordPasses fs) else records

/-- The selection state with no selected values. -/
def emptyFilters : Filters := fun _ => []

/-- Override one facet's selections. -/
def setFacet (fs : Filters) (k : FacetKey) (vs : List String) : Filters :=
  fun k2 => if k2 = k then vs else fs k2

/-- Query parameters of the data route, with `limit` already parsed
(the route defaults it to 2000). -/
structure DataParams where
  year : Option String
  country : Option String
  hub : Option String
  region : Option String
  cedant : Option String
  insured : Option String
  limit : Option Int

/-- JavaScript `hay.includes(needle)` substring test. -/
def strIncludes (hay needle : String) : Bool :=
  needle.toList.isEmpty || hay.toList.tails.any (fun t => needle.toList.isPrefixOf t)

/-- Apply one optional substring filter (skipped when the parameter is
absent or the empty string). -/
def applyIncludesFilter (sel : ReinsuranceData → String) (p : Option String)
    (l : List ReinsuranceData) : List ReinsuranceData :=
  match p with
  | some s => if s ≠ "" then l.filter (fun r => strIncludes (jsToLower (sel r)) (jsToLower s)) else l
  | none => l

/-- `filterData` from the data route: exact `uy` match for `year`,
case-insensitive substring match for the other parameters, applied in
sequence. -/
def filterData (data : List ReinsuranceData) (p : DataParams) :
    List ReinsuranceData :=
  let f1 :=
    match p.year with
    | some s => if s ≠ "" then data.filter (fun r => r.uy == s) else data
    | none => data
  let f2 := applyIncludesFilter (·.countryName) p.country f1
  let f3 := applyIncludesFilter (·.hub) p.hub f2
  let f4 := applyIncludesFilter (·.region) p.region f3
  let f5 := applyIncludesFilter (·.cedant) p.cedant f4
  applyIncludesFilter (·.orgInsuredTrtyName) p.insured f5

/-- Swap two positions of a list (no-op when out of bounds), the
`[a[i], a[j]] = [a[j], a[i]]` step. -/
def listSwap (l : List α) (i j : Nat) : List α :=
  match l[i]?, l[j]? with
  | some a, some b => (l.set i b).set j a
  | _, _ => l

/-- The Fisher-Yates loop of `shuffleArray`, from index `i` down to 1;
`rand i` models the fresh `Math.random()` draw of iteration `i`,
reduced mod `i + 1` exactly as `Math.floor(Math.random() * (i + 1))`
lands in `[0, i]`. -/
def fyAux (rand : Nat → Nat) : Nat → List α → List α
  | 0, l => l
  | i + 1, l => fyAux rand i (listSwap l (i + 1) (rand (i + 1) % (i + 2)))

/-- `shuffleArray` from the data route, parametrized by the random
source. -/
def shuffleArray (l : List α) (rand : Nat → Nat) : List α :=
  fyAux rand (l.length - 1) l

/-- JavaScript `array.slice(0, n)` with a possibly negative `n`. -/
def jsSlice0 (l : List α) (n : Int) : List α :=
  if n < 0 then l.take (l.length - min l.length n.natAbs) else l.take n.toNat

/-- Response shape of the data route's `GET`. -/
structure DataResult where
  data : List ReinsuranceData
  total : Nat
  returned : Nat
deriving DecidableEq

/-- The data route's `GET` pipeline: filter, shuffle with the ambient
random source, cap at `limit` (default 2000), and report the
pre-capping match count as `total`. -/
def dataGET (allData : List ReinsuranceData) (p : DataParams)
    (rand : Nat → Nat) : DataResult :=
  let limit : Int := p.limit.getD 2000
  let filtered := filterData allData p
  let shuffled := shuffleArray filtered rand
  let limited := jsSlice0 shuffled limit
  ⟨limited, filtered.length, limited.length⟩

/-- The non-negativity constraints the repository's Zod schema
(`ReinsuranceDataSchema` in `src/unnamed/part_006`) places on the
financial fields, each declared there with `.min(0)`. -/
def schemaFinNonNeg (r : ReinsuranceData) : Prop :=
  0 ≤ r.maxLiabilityFC ∧ 0 ≤ r.grossUWPrem ∧ 0 ≤ r.grossBookPrem ∧
    0 ≤ r.grossActualAcq ∧ 0 ≤ r.grossPaidClaims ∧ 0 ≤ r.grossOsLoss

/-- A benign base record used by the concrete counterexamples: UY label
"2020", every other field empty/zero. -/
def baseRec : ReinsuranceData :=
  ⟨"2020", "", "", "", "", 0, 0, 0, 0, 0, 0, "", "", "", none, "", "", ""⟩

/-- A benign base normalized row for the analytics-page examples. -/
def baseRow : NormalizedRow :=
  ⟨"", "", "", none, none, none, none, "", "", "", none, none, none, 0, 0, 0, 0⟩

section Lemmas

/-- The ratio-guard pattern shared by every bucket computation. -/
theorem ratio_guard_zero (p a : ℚ) (h : p = 0) :
    (if 0 < p then a / p * 100 else 0) = 0 := by
  rw [h]
  simp

/-- Zero premium forces zero ratio fields in a quarterly bucket. -/
theorem computeQBucket_ratio_zero (qn : Nat) (yp : Option Int)
    (grp : List ReinsuranceData)
    (hp : (computeQBucket qn yp grp).premium = 0) :
    (computeQBucket qn yp grp).lossRatioPct = 0 ∧
    (computeQBucket qn yp grp).acquisitionPct = 0 ∧
    (computeQBucket qn yp grp).combinedRatioPct = 0 := by
  have hp2 : sumBy (fun r => r.grossUWPrem) grp = 0 := hp
  simp only [computeQBucket, hp2]
  norm_num

/-- Zero premium forces zero ratio fields in a yearly bucket. -/
theorem computeYBucket_ratio_zero (y : Int) (grp : List ReinsuranceData)
    (hp : (computeYBucket y grp).premium = 0) :
    (computeYBucket y grp).lossRatioPct = 0 ∧
    (computeYBucket y grp).acquisitionPct = 0 ∧
    (computeYBucket y grp).combinedRatioPct = 0 := by
  have hp2 : sumBy (fun r => r.grossUWPrem) grp = 0 := hp
  simp only [computeYBucket, hp2]
  norm_num

/-- Zero premium forces zero ratio fields in a grand total. -/
theorem computeTotal_ratio_zero (pc : Nat) (p a c o : ℚ)
    (hp : (computeTotal pc p a c o).premium = 0) :
    (computeTotal pc p a c o).lossRatioPct = 0 ∧
    (computeTotal pc p a c o).acquisitionPct = 0 ∧
    (computeTotal pc p a c o).combinedRatioPct = 0 := by
  have hp2 : p = 0 := hp
  simp only [computeTotal, hp2]
  norm_num

end Lemmas

/-- **C10** Aggregating an empty record list returns the all-zero KPI
object: premium, paidClaims, outstandingClaims, incurredClaims,
expense, lossRatio, expenseRatio, combinedRatio, numberOfAccounts and
avgMaxLiability all equal 0. -/
theorem c10_aggregateKPIs_empty :
    (aggregateKPIs []).premium = 0 ∧
    (aggregateKPIs []).paidClaims = 0 ∧
    (aggregateKPIs []).outstandingClaims = 0 ∧
    (aggregateKPIs []).incurredClaims = 0 ∧
    (aggregateKPIs []).expense = 0 ∧
    (aggregateKPIs []).lossRatio = 0 ∧
    (aggregateKPIs []).expenseRatio = 0 ∧
    (aggregateKPIs []).combinedRatio = 0 ∧
    (aggregateKPIs []).numberOfAccounts = 0 ∧
    (aggregateKPIs []).avgMaxLiability = 0 := by
  refine ⟨rfl, rfl, rfl, rfl, rfl, rfl, rfl, rfl, rfl, rfl⟩

/-- **C7** The parsers coerce unparsable numeric cells to 0 (so `NaN`
is never stored), but they do NOT enforce the non-negativity half of
the invariant: the cell `"-100"` is stored as the negative number
`-100`, violating the `.min(0)` constraints of the repository's own
`ReinsuranceDataSchema`. -/
theorem c7_negative_financials_stored :
    safeParseFloat "-100" = -100 ∧
    safeParseFloat "abc" = 0 ∧
    safeParseFloat "" = 0 ∧
    ¬ schemaFinNonNeg { baseRec with grossUWPrem := safeParseFloat "-100" } := by
  have h3 : safeParseFloat "-100" = -100 := by
    have hp : parseFloatParts (stripCommasWs "-100") = some (true, 100, 0, 0, false, 0) := by
      decide
    simp only [safeParseFloat, parseFloatJS, hp, Option.map_some]
    rw [if_neg (by decide)]
    norm_num [floatValue]
  have h4 : safeParseFloat "abc" = 0 := by
    have hp : parseFloatParts (stripCommasWs "abc") = none := by decide
    simp only [safeParseFloat, parseFloatJS, hp]
    rw [if_neg (by decide)]
    rfl
  have h5 : safeParseFloat "" = 0 := by
    simp only [safeParseFloat]
    rw [if_pos (by decide)]
  refine ⟨h3, h4, h5, ?_⟩
  intro h
  have h2 := h.2.1
  rw [show ({ baseRec with grossUWPrem := safeParseFloat "-100" } :
    ReinsuranceData).grossUWPrem = safeParseFloat "-100" from rfl, h3] at h2
  norm_num at h2

/-- **C1** Ratio guard for every aggregate bucket the engine produces:
in each per-quarter bucket, each per-year bucket, and each grand
total, a summed premium of 0 forces lossRatioPct, acquisitionPct and
combinedRatioPct to 0.  (Finiteness of every numeric field is
intrinsic to this rational-number embedding: with the `premium > 0`
guards, no division by zero occurs, so every field is a well-defined
rational whenever the inputs are.) -/
theorem c1_ratio_guard (records : List ReinsuranceData) (yp : Option Int) :
    (∀ b ∈ (quarterlyResult records yp).quarters, b.premium = 0 →
      b.lossRatioPct = 0 ∧ b.acquisitionPct = 0 ∧ b.combinedRatioPct = 0) ∧
    ((quarterlyResult records yp).total.premium = 0 →
      (quarterlyResult records yp).total.lossRatioPct = 0 ∧
      (quarterlyResult records yp).total.acquisitionPct = 0 ∧
      (quarterlyResult records yp).total.combinedRatioPct = 0) ∧
    (∀ b ∈ (yearlyResult records).years, b.premium = 0 →
      b.lossRatioPct = 0 ∧ b.acquisitionPct = 0 ∧ b.combinedRatioPct = 0) ∧
    ((yearlyResult records).total.premium = 0 →
      (yearlyResult records).total.lossRatioPct = 0 ∧
      (yearlyResult records).total.acquisitionPct = 0 ∧
      (yearlyResult records).total.combinedRatioPct = 0) := by
  refine ⟨?_, ?_, ?_, ?_⟩
  · intro b hb hp
    rcases List.mem_map.mp hb with ⟨n, _, rfl⟩
    exact computeQBucket_ratio_zero n yp _ hp
  · exact computeTotal_ratio_zero _ _ _ _ _
  · intro b hb hp
    rcases List.mem_map.mp hb with ⟨y, _, rfl⟩
    exact computeYBucket_ratio_zero y _ hp
  · exact computeTotal_ratio_zero _ _ _ _ _

/-- Witness for C1: the Q1 bucket of the empty dataset has premium 0
and all three ratio fields 0. -/
theorem c1_ratio_guard_witness :
    (computeQBucket 1 none []).lossRatioPct = 0 ∧
    (computeQBucket 1 none []).acquisitionPct = 0 ∧
    (computeQBucket 1 none []).combinedRatioPct = 0 := by
  have hq : (quarterlyResult [] none).quarters =
      [computeQBucket 1 none [], computeQBucket 2 none [],
       computeQBucket 3 none [], computeQBucket 4 none []] := rfl
  exact (c1_ratio_guard [] none).1 (computeQBucket 1 none [])
    (by rw [hq]; exact List.mem_cons_self _ _) rfl

/-- An empty quarter group yields the all-zero bucket. -/
theorem computeQBucket_empty (n : Nat) (yp : Option Int) :
    computeQBucket n yp [] = ⟨n, yp.getD 0, 0, 0, 0, 0, 0, 0, 0, 0, 0, 0⟩ := by
  simp [computeQBucket, sumBy]

/-- **C8** Quarterly aggregation always returns one bucket per quarter
key Q1-Q4 (the quarter numbers of the returned buckets are exactly
[1, 2, 3, 4]), and a quarter with no matching records yields the
bucket with policyCount 0 and every monetary and ratio field 0,
rather than being omitted. -/
theorem c8_period_grid (records : List ReinsuranceData) (yp : Option Int) :
    ((quarterlyResult records yp).quarters.map (·.quarter)) = [1, 2, 3, 4] ∧
    ∀ n ∈ ([1, 2, 3, 4] : List Nat), quarterGroup records yp (quarterKey n) = [] →
      (⟨n, yp.getD 0, 0, 0, 0, 0, 0, 0, 0, 0, 0, 0⟩ : QBucket) ∈
        (quarterlyResult records yp).quarters := by
  constructor
  · rfl
  · intro n hn hgrp
    have hql : (quarterlyResult records yp).quarters =
        [computeQBucket 1 yp (quarterGroup records yp (quarterKey 1)),
         computeQBucket 2 yp (quarterGroup records yp (quarterKey 2)),
         computeQBucket 3 yp (quarterGroup records yp (quarterKey 3)),
         computeQBucket 4 yp (quarterGroup records yp (quarterKey 4))] := rfl
    rw [hql]
    simp only [List.mem_cons, List.not_mem_nil, or_false] at hn
    rcases hn with h | h | h | h <;>
      subst h <;> rw [hgrp, computeQBucket_empty] <;> simp

/-- Witness for C8: on the empty dataset, Q3 has no matching records
and the result still contains the all-zero Q3 bucket. -/
theorem c8_period_grid_witness :
    (⟨3, 0, 0, 0, 0, 0, 0, 0, 0, 0, 0, 0⟩ : QBucket) ∈
      (quarterlyResult [] none).quarters :=
  (c8_period_grid [] none).2 3 (by decide) rfl

/-- Sums are invariant under the `mergeSort` the page performs on
client groups. -/
theorem sum_map_mergeSort {α : Type} [DecidableEq α] (le : α → α → Bool)
    (l : List α) (f : α → ℚ) :
    (((l.mergeSort le).map f)).sum = ((l.map f)).sum :=
  ((l.mergeSort_perm le).map f).sum_eq

/-- Nat-valued version for policy counts. -/
theorem sum_map_mergeSortNat {α : Type} [DecidableEq α] (le : α → α → Bool)
    (l : List α) (f : α → Nat) :
    (((l.mergeSort le).map f)).sum = ((l.map f)).sum :=
  ((l.mergeSort_perm le).map f).sum_eq

/-- **C5** Sum consistency: for the quarterly grouping, the yearly
grouping, and the client-dimension grouping, the grand-total bucket's
base measures equal the sums of the corresponding measures over ALL
group buckets — for the client grouping this holds for every value of
the top-N cap, because the grand total is computed from all client
groups, not the capped list. -/
theorem c5_sum_consistency (records : List ReinsuranceData) (yp : Option Int)
    (rows : List NormalizedRow) (ct : ClientType) (cap : Nat)
    (hrows : rows ≠ []) :
    ((quarterlyResult records yp).total.policyCount =
        ((quarterlyResult records yp).quarters.map (·.policyCount)).sum ∧
      (quarterlyResult records yp).total.premium =
        ((quarterlyResult records yp).quarters.map (·.premium)).sum ∧
      (quarterlyResult records yp).total.acquisition =
        ((quarterlyResult records yp).quarters.map (·.acquisition)).sum ∧
      (quarterlyResult records yp).total.paidClaims =
        ((quarterlyResult records yp).quarters.map (·.paidClaims)).sum ∧
      (quarterlyResult records yp).total.osLoss =
        ((quarterlyResult records yp).quarters.map (·.osLoss)).sum) ∧
    ((yearlyResult records).total.policyCount =
        ((yearlyResult records).years.map (·.policyCount)).sum ∧
      (yearlyResult records).total.premium =
        ((yearlyResult records).years.map (·.premium)).sum ∧
      (yearlyResult records).total.acquisition =
        ((yearlyResult records).years.map (·.acquisition)).sum ∧
      (yearlyResult records).total.paidClaims =
        ((yearlyResult records).years.map (·.paidClaims)).sum ∧
      (yearlyResult records).total.osLoss =
        ((yearlyResult records).years.map (·.osLoss)).sum) ∧
    (∀ g, (clientData ct cap rows).grandTotal = some g →
      g.premium = ((groupByClient ct rows).map
        (fun gr => (calculateClientMetrics gr.2).premium)).sum ∧
      g.policyCount = ((groupByClient ct rows).map
        (fun gr => (calculateClientMetrics gr.2).policyCount)).sum ∧
      g.incurredClaims = ((groupByClient ct rows).map
        (fun gr => (calculateClientMetrics gr.2).incurredClaims)).sum ∧
      g.acquisitionCosts = ((groupByClient ct rows).map
        (fun gr => (calculateClientMetrics gr.2).acquisitionCosts)).sum) := by
  refine ⟨⟨rfl, rfl, rfl, rfl, rfl⟩, ⟨rfl, rfl, rfl, rfl, rfl⟩, ?_⟩
  intro g hg
  have hlen : ¬ rows.length = 0 := by
    simpa [List.length_eq_zero] using hrows
  rw [show clientData ct cap rows = _ from rfl] at hg
  simp only [clientData, if_neg hlen, Option.some.injEq] at hg
  subst hg
  refine ⟨?_, ?_, ?_, ?_⟩ <;>
    simp only [clientMetricsOf, List.map_map] <;>
    first
      | exact sum_map_mergeSort _ _ _
      | exact sum_map_mergeSortNat _ _ _

/-- Witness for C5: a one-row dataset with a broker name; the grand
total over all client groups matches the group sums. -/
theorem c5_sum_consistency_witness :
    ∃ g, (clientData .brokerDim 0 [{ baseRow with broker := some "A" }]).grandTotal = some g ∧
      g.premium = ((groupByClient .brokerDim [{ baseRow with broker := some "A" }]).map
        (fun gr => (calculateClientMetrics gr.2).premium)).sum := by
  obtain ⟨g, hg⟩ : ∃ g,
      (clientData .brokerDim 0 [{ baseRow with broker := some "A" }]).grandTotal = some g :=
    ⟨_, rfl⟩
  exact ⟨g, hg,
    ((c5_sum_consistency [] none [{ baseRow with broker := some "A" }] .brokerDim 0
      (by simp)).2.2 g hg).1⟩

/-- `monthToQuarterStr` only produces the four valid quarter strings. -/
theorem monthToQuarterStr_isQ14 (m q : String)
    (h : monthToQuarterStr m = some q) : isQ14 q = true := by
  unfold monthToQuarterStr at h
  split_ifs at h <;> simp_all <;> subst h <;> decide

/-- Valid quarter strings are never empty. -/
theorem isQ14_ne_empty (s : String) (h : isQ14 s = true) : s ≠ "" := by
  rcases (by simpa [isQ14] using h :
      ((s = "Q1" ∨ s = "Q2") ∨ s = "Q3") ∨ s = "Q4") with
    ((h1 | h1) | h1) | h1 <;> subst h1 <;> decide

/-- Bare digits are never empty. -/
theorem bareDigit_ne_empty (s : String) (h : isBareDigit14 s = true) : s ≠ "" := by
  rcases (by simpa [isBareDigit14] using h :
      ((s = "1" ∨ s = "2") ∨ s = "3") ∨ s = "4") with
    ((h1 | h1) | h1) | h1 <;> subst h1 <;> decide

/-- Bare digits fail the `^Q[1-4]$` validation. -/
theorem bareDigit_not_Q14 (s : String) (h : isBareDigit14 s = true) :
    isQ14 s = false := by
  rcases (by simpa [isBareDigit14] using h :
      ((s = "1" ∨ s = "2") ∨ s = "3") ∨ s = "4") with
    ((h1 | h1) | h1) | h1 <;> subst h1 <;> decide

/-- A bare-digit raw field does not trim/uppercase to the empty string. -/
theorem bareDigit_trim_ne (s : String) (h : isBareDigit14 s = true) :
    jsToUpper (jsTrim s) ≠ "" := by
  rcases (by simpa [isBareDigit14] using h :
      ((s = "1" ∨ s = "2") ∨ s = "3") ∨ s = "4") with
    ((h1 | h1) | h1) | h1 <;> subst h1 <;> decide

/-- Quarter-form fields pass through the derivation unchanged. -/
theorem deriveQuarterStr_qform (q0 m rawQ cd : String) (h : isQ14 q0 = true) :
    deriveQuarterStr q0 m rawQ cd = q0 := by
  unfold deriveQuarterStr
  rw [if_neg]
  rcases (by simpa [isQ14] using h :
      ((q0 = "Q1" ∨ q0 = "Q2") ∨ q0 = "Q3") ∨ q0 = "Q4") with
    ((h1 | h1) | h1) | h1 <;> subst h1 <;> decide

/-- When the quarter field is empty or a bare digit and the month field
yields a quarter, the month's quarter wins. -/
theorem deriveQuarterStr_month (q0 m rawQ cd qq : String)
    (hd : q0 = "" ∨ isBareDigit14 q0 = true)
    (hm : monthToQuarterStr (monthMap m) = some qq) :
    deriveQuarterStr q0 m rawQ cd = qq := by
  have hmne : m ≠ "" := by
    intro he
    subst he
    have hnone : monthToQuarterStr (monthMap "") = none := by decide
    rw [hnone] at hm
    cases hm
  have hqq := monthToQuarterStr_isQ14 _ _ hm
  have hqqne := isQ14_ne_empty _ hqq
  unfold deriveQuarterStr
  rw [if_pos hd]
  simp [hmne, hm, hqqne]

/-- When the quarter field is a bare digit and the month field yields
no quarter, the digit survives unchanged: the digit-conversion branch
is unreachable and the comDate fallback is skipped. -/
theorem deriveQuarterStr_digit_dead (q0 m rawQ cd : String)
    (hd : isBareDigit14 q0 = true)
    (hm : monthToQuarterStr (monthMap m) = none) :
    deriveQuarterStr q0 m rawQ cd = q0 := by
  have hq0ne := bareDigit_ne_empty _ hd
  unfold deriveQuarterStr
  rw [if_pos (Or.inr hd)]
  by_cases hm0 : m = ""
  · simp [hm0, hq0ne]
  · simp [hm0, hm, hq0ne]

/-- When the quarter field is empty (so the raw field is not a bare
digit) and the month yields no quarter, the commitment-date fallback
fires with the native `new Date` parser. -/
theorem deriveQuarterStr_comDate (m rawQ cd : String)
    (hm : monthToQuarterStr (monthMap m) = none)
    (hcd : cd ≠ "") (hraw : isBareDigit14 rawQ = false) :
    deriveQuarterStr "" m rawQ cd =
      (match jsNewDate cd with
       | some (_, mo, _) => "Q" ++ toString ((mo + 2) / 3)
       | none => "QNaN") := by
  unfold deriveQuarterStr
  rw [if_pos (Or.inl rfl)]
  by_cases hm0 : m = ""
  · simp [hm0, hraw, hcd]
  · simp [hm0, hm, hraw, hcd]

/-- Quarters derived from a calendar month 1-12 pass validation. -/
theorem isQ14_of_month (mo : Nat) (h1 : 1 ≤ mo) (h2 : mo ≤ 12) :
    isQ14 ("Q" ++ toString ((mo + 2) / 3)) = true := by
  interval_cases mo <;> decide

/-- The resolver's comDate fallback, phrased on records. -/
theorem quarterResolve_comDate (r : ReinsuranceData) (y : Int) (mo d : Nat)
    (hq0 : jsToUpper (jsTrim r.inceptionQuarter) = "")
    (hm : monthToQuarterStr (monthMap (jsToUpper (jsTrim r.inceptionMonth))) = none)
    (hcd : r.comDate ≠ "")
    (hjs : jsNewDate r.comDate = some (y, mo, d))
    (h1 : 1 ≤ mo) (h2 : mo ≤ 12) :
    quarterResolve r = some ("Q" ++ toString ((mo + 2) / 3)) := by
  have hraw : isBareDigit14 r.inceptionQuarter = false := by
    cases h : isBareDigit14 r.inceptionQuarter
    · rfl
    · exact absurd hq0 (bareDigit_trim_ne _ h)
  unfold quarterResolve
  rw [hq0, deriveQuarterStr_comDate _ _ _ hm hcd hraw, hjs]
  simp only [if_pos (isQ14_of_month mo h1 h2)]

/-- **C2** is false on the code: for a record whose inception-quarter
field is the bare digit "2" and whose month field is "Jan", the
resolver returns Q1 (the month wins), not Q2 as the claim's priority
order requires; and with the digit alone the record fails resolution
entirely instead of mapping to Q2. -/
theorem c2_counterexample :
    normalizeTimeData { baseRec with inceptionQuarter := "2", inceptionMonth := "Jan" } =
      some (2020, "Q1") ∧
    ¬ normalizeTimeData { baseRec with inceptionQuarter := "2", inceptionMonth := "Jan" } =
      some (2020, "Q2") ∧
    normalizeTimeData { baseRec with inceptionQuarter := "2" } = none := by
  decide

/-- **C2 (amended)** Quarter resolution as the code implements it: a
`Q[1-4]` field is used directly; when the field is empty or a bare
digit, a month-derived quarter wins (overriding the digit); a bare
digit whose month yields no quarter is never converted to `Q{digit}` —
the record fails quarter resolution, and the comDate fallback is not
consulted. -/
theorem c2_quarter_chain_amended (r : ReinsuranceData) :
    (isQ14 (jsToUpper (jsTrim r.inceptionQuarter)) = true →
      quarterResolve r = some (jsToUpper (jsTrim r.inceptionQuarter))) ∧
    (∀ qq, (jsToUpper (jsTrim r.inceptionQuarter) = "" ∨
        isBareDigit14 (jsToUpper (jsTrim r.inceptionQuarter)) = true) →
      monthToQuarterStr (monthMap (jsToUpper (jsTrim r.inceptionMonth))) = some qq →
      quarterResolve r = some qq) ∧
    (isBareDigit14 (jsToUpper (jsTrim r.inceptionQuarter)) = true →
      monthToQuarterStr (monthMap (jsToUpper (jsTrim r.inceptionMonth))) = none →
      quarterResolve r = none) := by
  refine ⟨?_, ?_, ?_⟩
  · intro h
    unfold quarterResolve
    rw [deriveQuarterStr_qform _ _ _ _ h]
    simp only [if_pos h]
  · intro qq hd hm
    unfold quarterResolve
    rw [deriveQuarterStr_month _ _ _ _ _ hd hm]
    simp only [if_pos (monthToQuarterStr_isQ14 _ _ hm)]
  · intro hd hm
    unfold quarterResolve
    rw [deriveQuarterStr_digit_dead _ _ _ _ hd hm]
    simp [bareDigit_not_Q14 _ hd]

/-- Witness for the amended C2 at concrete records: a `q3` field is
used directly; digit "2" with month "Jan" resolves to Q1; digit "3"
alone fails. -/
theorem c2_quarter_chain_amended_witness :
    quarterResolve { baseRec with inceptionQuarter := "q3" } = some "Q3" ∧
    quarterResolve { baseRec with inceptionQuarter := "2", inceptionMonth := "Jan" } =
      some "Q1" ∧
    quarterResolve { baseRec with inceptionQuarter := "3" } = none := by
  refine ⟨?_, ?_, ?_⟩
  · exact ((c2_quarter_chain_amended _).1 (by decide)).trans (by decide)
  · exact (c2_quarter_chain_amended _).2.1 "Q1" (by decide) (by decide)
  · exact (c2_quarter_chain_amended _).2.2 (by decide) (by decide)

/-- **C3** is false on the code: the period resolver's quarter fallback
uses the native month-first `new Date` parser, not the day-first
heuristic. On "05/12/2020" the day-first reading gives month 12 (Q4),
but the resolver lands in Q2 (May 12). -/
theorem c3_counterexample :
    parseComDateToJSDate "05/12/2020" = some (2020, 12, 5) ∧
    normalizeTimeData { baseRec with comDate := "05/12/2020" } = some (2020, "Q2") ∧
    ¬ normalizeTimeData { baseRec with comDate := "05/12/2020" } = some (2020, "Q4") := by
  decide

/-- **C3 (amended)** The day-first heuristic lives in
`parseComDateToJSDate` ("05/04/2020" parses there to day 5, April),
but the period resolver's quarter fallback uses the native `new Date`
parser, whose month is the FIRST number of a slash date; the spec's
example "05/04/2020" still resolves to Q2 because the native parser
reads it as May 4. -/
theorem c3_comdate_amended (r : ReinsuranceData) (y : Int) (mo d : Nat) :
    parseComDateToJSDate "05/04/2020" = some (2020, 4, 5) ∧
    (jsToUpper (jsTrim r.inceptionQuarter) = "" →
      monthToQuarterStr (monthMap (jsToUpper (jsTrim r.inceptionMonth))) = none →
      r.comDate ≠ "" → jsNewDate r.comDate = some (y, mo, d) →
      1 ≤ mo → mo ≤ 12 →
      quarterResolve r = some ("Q" ++ toString ((mo + 2) / 3))) :=
  ⟨by decide, fun h1 h2 h3 h4 h5 h6 => quarterResolve_comDate r y mo d h1 h2 h3 h4 h5 h6⟩

/-- Witness for the amended C3: "05/04/2020" as the only temporal field
resolves to Q2 via the native parser's month 5. -/
theorem c3_comdate_amended_witness :
    quarterResolve { baseRec with comDate := "05/04/2020" } = some "Q2" :=
  ((c3_comdate_amended { baseRec with comDate := "05/04/2020" } 2020 5 4).2
    (by decide) (by decide) (by decide) (by decide) (by decide) (by decide)).trans
    (by decide)

/-- **C4** is false on the code: a present out-of-range inception year
(2025) blocks the fallback to the underwriting-year label even though
the label parses to the in-range 2020; both routes fail/exclude the
record instead of resolving it to 2020. -/
theorem c4_counterexample :
    parseIntJS ({ baseRec with inceptionYear := some 2025, inceptionQuarter := "Q1" } : ReinsuranceData).uy = some 2020 ∧
    normalizeTimeData { baseRec with inceptionYear := some 2025, inceptionQuarter := "Q1" } = none ∧
    yearlyYearOf { baseRec with inceptionYear := some 2025, inceptionQuarter := "Q1" } = none := by
  decide

/-- **C4 (amended)** Year resolution as the code implements it: the
underwriting-year label is consulted only when the inception year is
absent or zero (JavaScript falsiness); a present nonzero inception
year is used when in [2019, 2021] and causes failure/exclusion when
out of range, regardless of the label. -/
theorem c4_year_chain_amended (r : ReinsuranceData) (y : Int) :
    ((r.inceptionYear = none ∨ r.inceptionYear = some 0) →
      parseIntJS r.uy = some y → 2019 ≤ y → y ≤ 2021 →
      yearResolve r = some y ∧ yearlyYearOf r = some y) ∧
    (∀ iy : Int, r.inceptionYear = some iy → iy ≠ 0 →
      ((2019 ≤ iy ∧ iy ≤ 2021) →
        yearResolve r = some iy ∧ yearlyYearOf r = some iy) ∧
      ((iy < 2019 ∨ 2021 < iy) →
        yearResolve r = none ∧ yearlyYearOf r = none)) := by
  constructor
  · intro hiy hp h1 h2
    have huy : r.uy ≠ "" := by
      intro he
      rw [he] at hp
      rw [show parseIntJS "" = (none : Option Int) from by decide] at hp
      cases hp
    have hfalsy : jsFalsyInt r.inceptionYear = true := by
      rcases hiy with h | h <;> simp [h, jsFalsyInt]
    constructor
    · simp only [yearResolve]
      simp [hfalsy, huy, hp, h1, h2]
      omega
    · simp only [yearlyYearOf]
      simp [hfalsy, huy, hp, h1, h2]
      omega
  · intro iy hiy hne
    have hfalsy : jsFalsyInt (some iy) = false := by
      simp [jsFalsyInt, hne]
    constructor
    · intro hin
      constructor
      · simp only [yearResolve]
        simp [hfalsy, hiy]
        omega
      · simp only [yearlyYearOf]
        simp [hfalsy, hiy]
        omega
    · intro hout
      constructor
      · simp only [yearResolve]
        simp [hfalsy, hiy]
        omega
      · simp only [yearlyYearOf]
        simp [hfalsy, hiy]
        omega

/-- Witness for the amended C4: absent inception year falls back to the
UY label 2020; inception year 2025 fails resolution. -/
theorem c4_year_chain_amended_witness :
    yearResolve baseRec = some 2020 ∧
    yearResolve { baseRec with inceptionYear := some 2025 } = none :=
  ⟨((c4_year_chain_amended baseRec 2020).1 (Or.inl rfl) (by decide)
      (by decide) (by decide)).1,
   (((c4_year_chain_amended { baseRec with inceptionYear := some 2025 } 0).2 2025
      rfl (by decide)).2 (by decide)).1⟩

/-- Every facet key is iterated by the filter. -/
theorem mem_facetKeys (k : FacetKey) : k ∈ facetKeys := by
  cases k <;> simp [facetKeys]

/-- Facet matching is monotone in the selected-value list (values are
OR'd within a facet). -/
theorem matchesFacet_mono (r : ReinsuranceData) (k : FacetKey) (v : String)
    (vs : List String) (h : matchesFacet r k vs = true) :
    matchesFacet r k (v :: vs) = true := by
  cases k <;> simp [matchesFacet] at h ⊢ <;> tauto

/-- A facet with a selection makes the filter active. -/
theorem hasFilters_of_ne (fs : Filters) (k : FacetKey) (hk : fs k ≠ []) :
    hasFilters fs = true := by
  simp only [hasFilters, List.any_eq_true]
  exact ⟨k, mem_facetKeys k, by simpa [List.isEmpty_iff] using hk⟩

/-- Passing records still pass after one more value is added to an
already-selected facet. -/
theorem recordPasses_addval (fs : Filters) (k : FacetKey) (v : String)
    (r : ReinsuranceData) (hk : fs k ≠ []) (h : recordPasses fs r = true) :
    recordPasses (setFacet fs k (v :: fs k)) r = true := by
  simp only [recordPasses, List.all_eq_true] at h ⊢
  intro k2 hk2
  have h2 := h k2 hk2
  by_cases hkk : k2 = k
  · subst hkk
    have h3 : matchesFacet r k2 (fs k2) = true := by
      have h5 : (fs k2).isEmpty = false := by simpa [List.isEmpty_iff] using hk
      simpa [h5] using h2
    simp [setFacet, matchesFacet_mono r k2 v (fs k2) h3]
  · simpa [setFacet, hkk] using h2

/-- **C6** is false on the code: with the broker facet already
selecting "a", adding the value "b" INCREASES the number of returned
records from 1 to 2 (union-within-facet can only widen a facet's
match set). -/
theorem c6_counterexample :
    (filterRecords [{ baseRec with broker := "A" }, { baseRec with broker := "B" }]
      (setFacet emptyFilters .brokerKey ["a"])).length = 1 ∧
    (filterRecords [{ baseRec with broker := "A" }, { baseRec with broker := "B" }]
      (setFacet (setFacet emptyFilters .brokerKey ["a"]) .brokerKey
        ("b" :: (setFacet emptyFilters .brokerKey ["a"]) .brokerKey))).length = 2 := by
  decide

/-- **C6 (amended)** Filter monotonicity as the OR-within/AND-across
semantics actually give it: removing all selections returns the full
record set; adding one more value to a facet that ALREADY has a
selection never DECREASES the match count; and turning a previously
empty facet into a selected one never increases it. -/
theorem c6_filter_monotonicity (records : List ReinsuranceData) (fs : Filters)
    (k : FacetKey) (v : String) :
    filterRecords records emptyFilters = records ∧
    (fs k ≠ [] →
      (filterRecords records fs).length ≤
        (filterRecords records (setFacet fs k (v :: fs k))).length) ∧
    (fs k = [] →
      (filterRecords records (setFacet fs k [v])).length ≤
        (filterRecords records fs).length) := by
  refine ⟨?_, ?_, ?_⟩
  · simp [filterRecords, hasFilters, emptyFilters, facetKeys]
  · intro hk
    have h1 := hasFilters_of_ne fs k hk
    have h2 := hasFilters_of_ne (setFacet fs k (v :: fs k)) k (by simp [setFacet])
    unfold filterRecords
    rw [if_pos h1, if_pos h2]
    exact (List.monotone_filter_right records
      (fun r hr => recordPasses_addval fs k v r hk hr)).length_le
  · intro hk
    have h2 := hasFilters_of_ne (setFacet fs k [v]) k (by simp [setFacet])
    have himp : ∀ r, recordPasses (setFacet fs k [v]) r = true →
        recordPasses fs r = true := by
      intro r hr
      simp only [recordPasses, List.all_eq_true] at hr ⊢
      intro k2 hk2
      by_cases hkk : k2 = k
      · subst hkk
        simp [hk]
      · have h3 := hr k2 hk2
        simpa [setFacet, hkk] using h3
    unfold filterRecords
    rw [if_pos h2]
    by_cases hf : hasFilters fs
    · rw [if_pos hf]
      exact (List.monotone_filter_right records himp).length_le
    · rw [if_neg hf]
      exact List.length_filter_le _ _

/-- Witness for the amended C6 at concrete data. -/
theorem c6_filter_monotonicity_witness :
    filterRecords [{ baseRec with broker := "A" }] emptyFilters =
      [{ baseRec with broker := "A" }] ∧
    (filterRecords [{ baseRec with broker := "A" }, { baseRec with broker := "B" }]
        (setFacet emptyFilters .brokerKey ["a"])).length ≤
      (filterRecords [{ baseRec with broker := "A" }, { baseRec with broker := "B" }]
        (setFacet (setFacet emptyFilters .brokerKey ["a"]) .brokerKey
          ("b" :: (setFacet emptyFilters .brokerKey ["a"]) .brokerKey))).length ∧
    (filterRecords [{ baseRec with broker := "A" }]
        (setFacet emptyFilters .brokerKey ["a"])).length ≤
      (filterRecords [{ baseRec with broker := "A" }] emptyFilters).length :=
  ⟨(c6_filter_monotonicity [{ baseRec with broker := "A" }] emptyFilters
      .brokerKey "x").1,
   (c6_filter_monotonicity [{ baseRec with broker := "A" }, { baseRec with broker := "B" }]
      (setFacet emptyFilters .brokerKey ["a"]) .brokerKey "b").2.1 (by decide),
   (c6_filter_monotonicity [{ baseRec with broker := "A" }] emptyFilters
      .brokerKey "a").2.2 rfl⟩

/-- Replacing position `m` after pulling out its element is a
permutation. -/
theorem cons_set_perm {α : Type} (xs : List α) (m : Nat) (b y : α)
    (h : xs[m]? = some b) : (b :: xs.set m y).Perm (y :: xs) := by
  induction xs generalizing m with
  | nil => simp at h
  | cons z t ih =>
    cases m with
    | zero =>
      simp at h
      subst h
      show (z :: y :: t).Perm (y :: z :: t)
      exact List.Perm.swap y z t
    | succ k =>
      simp at h
      show (b :: z :: t.set k y).Perm (y :: z :: t)
      exact ((List.Perm.swap z b (t.set k y)).trans ((ih k h).cons z)).trans
        (List.Perm.swap y z t)

/-- Exchanging the elements at two in-bounds positions is a
permutation. -/
theorem set_set_perm {α : Type} (l : List α) (i j : Nat) (a b : α)
    (hi : l[i]? = some a) (hj : l[j]? = some b) :
    ((l.set i b).set j a).Perm l := by
  induction l generalizing i j with
  | nil => simp at hi
  | cons x t ih =>
    cases i with
    | zero =>
      simp at hi
      subst hi
      cases j with
      | zero =>
        simp at hj
        subst hj
        show (x :: t).Perm (x :: t)
        exact List.Perm.refl _
      | succ m =>
        simp at hj
        show (b :: t.set m x).Perm (x :: t)
        exact cons_set_perm t m b x hj
    | succ n =>
      simp at hi
      cases j with
      | zero =>
        simp at hj
        subst hj
        show (a :: t.set n x).Perm (x :: t)
        exact cons_set_perm t n a x hi
      | succ m =>
        simp at hj
        show (x :: (t.set n b).set m a).Perm (x :: t)
        exact (ih n m hi hj).cons x

/-- One Fisher-Yates swap step is a permutation. -/
theorem listSwap_perm {α : Type} (l : List α) (i j : Nat) :
    (listSwap l i j).Perm l := by
  unfold listSwap
  split
  · rename_i a b hi hj
    exact set_set_perm l i j a b hi hj
  · exact List.Perm.refl l

/-- The Fisher-Yates loop permutes its input, for every random
source. -/
theorem fyAux_perm {α : Type} (rand : Nat → Nat) (i : Nat) (l : List α) :
    (fyAux rand i l).Perm l := by
  induction i generalizing l with
  | zero => exact List.Perm.refl l
  | succ n ih =>
    exact (ih (listSwap l (n + 1) (rand (n + 1) % (n + 2)))).trans
      (listSwap_perm l (n + 1) (rand (n + 1) % (n + 2)))

/-- `shuffleArray` returns a permutation of its input. -/
theorem shuffleArray_perm {α : Type} (l : List α) (rand : Nat → Nat) :
    (shuffleArray l rand).Perm l :=
  fyAux_perm rand _ l

/-- **C9** is false on the code: the data route shuffles the filtered
records with `Math.random` before capping, so two invocations with the
same dataset and parameters but different random draws return
different orders. -/
theorem c9_counterexample :
    dataGET [baseRec, { baseRec with uy := "2021" }]
        ⟨none, none, none, none, none, none, none⟩ (fun _ => 0) ≠
      dataGET [baseRec, { baseRec with uy := "2021" }]
        ⟨none, none, none, none, none, none, none⟩ (fun _ => 1) := by
  decide

/-- **C9 (amended)** The data route's response: the reported total
equals the match count before capping, the shuffle is a permutation of
the matching records (no record invented or dropped before the cap),
and the returned data is the `limit`-cap of that shuffle — but the
order depends on the per-invocation random draws and is not stable. -/
theorem c9_data_route (allData : List ReinsuranceData) (p : DataParams)
    (rand : Nat → Nat) :
    (dataGET allData p rand).total = (filterData allData p).length ∧
    (shuffleArray (filterData allData p) rand).Perm (filterData allData p) ∧
    (dataGET allData p rand).data =
      jsSlice0 (shuffleArray (filterData allData p) rand) (p.limit.getD 2000) :=
  ⟨rfl, shuffleArray_perm _ _, rfl⟩

end KuwaitRe
